import Mathlib

/-!
Shallow embedding of `src/proxyserver.py` (the proxy pipeline: parse,
cache lookup, origin fetch, cache store, relay).

Python strings are modelled as `List Char` and byte strings as `List Nat`.
The cache directory is an association list from cache keys to file bytes,
extended with fault-injection sets (`readFail`, `writeFail`) standing for
keys whose `open`/`read`/`write` raises an `OSError`; in the Python code such
an exception propagates to the generic `except` clause of `handle_client`,
which prints a diagnostic and closes the client connection.

The origin network is modelled as a function from (hostname, path) to the
list of byte chunks successive `recv` calls on the origin socket would
return (an empty list, or an empty first chunk, models an origin that
closes without sending data).  `handle_client` performs a single
`recv(4096)` (line 171 of the source), hence reads only the head chunk.
-/

/-- Byte strings (Python `bytes`): a list of byte values. -/
abbrev Bytes := List Nat

/-- Python `str`, modelled as its list of characters. -/
abbrev Str := List Char

/-- Python whitespace for `str.split()` with no argument. -/
def isPySpace (c : Char) : Bool :=
  c = ' ' || c = '\t' || c = '\n' || c = '\r' || c = '\x0b' || c = '\x0c'

/-- Python `str.split()` with no separator: maximal runs of non-whitespace. -/
def pySplit (s : Str) : List Str :=
  (s.foldr
    (fun c acc =>
      if isPySpace c then [] :: acc
      else
        match acc with
        | [] => [[c]]
        | t :: ts => (c :: t) :: ts)
    []).filter (fun t => t ≠ [])

/-- First element of Python `text.split('\r\n')`: the prefix up to the first
CRLF (the whole string when no CRLF occurs).  `handle_client` inspects only
`lines[0]` of the split, so only this prefix is needed. -/
def firstLine : Str → Str
  | [] => []
  | '\r' :: '\n' :: _ => []
  | c :: rest => c :: firstLine rest

/-- Python `s.startswith(pre)`. -/
def strStartsWith : Str → Str → Bool
  | [], _ => true
  | _ :: _, [] => false
  | p :: ps, c :: cs => p = c && strStartsWith ps cs

/-- Python `url.split('/', 1)`: the part before the first slash, and
(when a slash occurs) the remainder after it. -/
def splitFirstSlash : Str → Str × Option Str
  | [] => ([], none)
  | '/' :: rest => ([], some rest)
  | c :: rest =>
      let hp := splitFirstSlash rest
      (c :: hp.1, hp.2)

/-- The cache directory plus injected storage faults: `entries` maps cache
keys (file names) to file contents, `readFail` lists keys whose open/read
raises, `writeFail` lists keys whose open/write raises. -/
structure FileSystem where
  entries : List (Str × Bytes)
  readFail : List Str
  writeFail : List Str
deriving DecidableEq

/-- Lookup of a file's bytes in the cache directory (first match wins;
`cache_content` prepends, so the most recent write shadows older ones). -/
def fsLookup : List (Str × Bytes) → Str → Option Bytes
  | [], _ => none
  | (k, v) :: rest, key => if k = key then some v else fsLookup rest key

/-- Outcome of `get_cached_content`: the file's bytes, absence, or an
`OSError` raised while reading (which the caller's `except` clause turns
into an aborted session). -/
inductive ReadResult where
  | hit (data : Bytes)
  | miss
  | ioError
deriving DecidableEq

/-- `get_cached_content(cache_key)` (proxyserver.py lines 52-63): returns the
cached bytes when the cache file exists, `None` (here `.miss`) otherwise;
reading an existing file may raise (here `.ioError`). -/
def get_cached_content (fs : FileSystem) (key : Str) : ReadResult :=
  match fsLookup fs.entries key with
  | some data => if key ∈ fs.readFail then .ioError else .hit data
  | none => .miss

/-- `cache_content(cache_key, content)` (proxyserver.py lines 69-76): writes
the bytes under the key, overwriting any prior value; `none` models the
write raising an `OSError` (e.g. a cache key too long for a file name). -/
def cache_content (fs : FileSystem) (key : Str) (data : Bytes) :
    Option FileSystem :=
  if key ∈ fs.writeFail then none
  else some { fs with entries := (key, data) :: fs.entries }

/-- The origin network: `chunks host path` is the sequence of byte chunks
successive `recv` calls on a connection to `host` port 80, after sending the
forwarded `GET path` request, would return. -/
structure Origin where
  chunks : Str → Str → List Bytes

/-- One `recv` call on the origin socket: the first pending chunk, or
empty bytes when the origin has closed without sending more data. -/
def recvOnce : List Bytes → Bytes
  | [] => []
  | c :: _ => c

/-- Result of `parse_request`: hostname, path and cache key extracted from
the request text, or a parse failure (which `handle_client` answers by
closing the connection with no response). -/
inductive ParseResult where
  | ok (hostname path cache_key : Str)
  | err
deriving DecidableEq

/-- The request-parsing prefix of `handle_client` (proxyserver.py lines
94-144): reject an empty read, an empty first line, a request line with
fewer than two whitespace-separated tokens, a method other than GET
(after upper-casing), an `https://` URL, and a URL starting with `/`;
then strip a leading `http://`, split the rest into hostname and path
(path defaults to `/`), and derive the cache key by replacing every `/`
in the URL with `_`. -/
def parse_request (request : Str) : ParseResult :=
  if request = [] then .err else
  let line0 := firstLine request
  if line0 = [] then .err else
  let request_line := pySplit line0
  if request_line.length < 2 then .err else
  let method := (request_line.headD []).map Char.toUpper
  let url0 := request_line.getD 1 []
  if method ≠ "GET".data then .err else
  if strStartsWith "https://".data url0 then .err else
  if strStartsWith "/".data url0 then .err else
  let url := if strStartsWith "http://".data url0 then url0.drop 7 else url0
  let hp := splitFirstSlash url
  let path := match hp.2 with
    | some r => '/' :: r
    | none => ['/']
  .ok hp.1 path (url.map (fun c => if c = '/' then '_' else c))

/-- Observable outcome of one `handle_client` call: the payloads of
`sendall` calls on the client socket (in order), the origin connections
opened (hostname, path of the forwarded request), the cache directory
afterwards, and whether an `[ERROR]` diagnostic was printed.  The client
socket is closed on every path (the `finally` clause), so closing is not
recorded separately. -/
structure HandleResult where
  sent : List Bytes
  originCalls : List (Str × Str)
  fs : FileSystem
  errorReported : Bool
deriving DecidableEq

/-- The fetch-store-relay tail of `handle_client` (proxyserver.py lines
153-183): connect to the origin, forward the request, `recv` ONCE (line
171, so only the first chunk of the origin's response is read), treat an
empty read as an error (nothing cached, nothing sent), otherwise cache the
bytes and relay them to the client; a write failure in `cache_content`
raises past the `sendall`, so the client receives nothing. -/
def fetchAndServe (fs : FileSystem) (origin : Origin)
    (hostname path cache_key : Str) : HandleResult :=
  let response := recvOnce (origin.chunks hostname path)
  if response = [] then ⟨[], [(hostname, path)], fs, true⟩
  else
    match cache_content fs cache_key response with
    | some fs2 => ⟨[response], [(hostname, path)], fs2, false⟩
    | none => ⟨[], [(hostname, path)], fs, true⟩

/-- The cache-consultation step of `handle_client` (proxyserver.py lines
146-151): a read error aborts the session (generic `except` clause);
non-empty cached bytes are relayed with no origin contact; `None` or empty
cached bytes (Python falsy) fall through to the origin fetch. -/
def cache_or_fetch (fs : FileSystem) (origin : Origin)
    (hostname path cache_key : Str) : HandleResult :=
  match get_cached_content fs cache_key with
  | .ioError => ⟨[], [], fs, true⟩
  | .hit data =>
      if data = [] then fetchAndServe fs origin hostname path cache_key
      else ⟨[data], [], fs, false⟩
  | .miss => fetchAndServe fs origin hostname path cache_key

/-- `handle_client` (proxyserver.py lines 82-191) as a function of the
request text, the cache directory and the origin network: parse, then
consult the cache, then fetch-store-relay on a miss. -/
def handle_client (fs : FileSystem) (origin : Origin) (request : Str) :
    HandleResult :=
  match parse_request request with
  | .err => ⟨[], [], fs, true⟩
  | .ok hostname path cache_key =>
      cache_or_fetch fs origin hostname path cache_key

/-- Concatenation of all of an origin's chunks: the bytes a
read-until-closed accumulation loop would return. -/
def concatChunks (l : List Bytes) : Bytes := l.foldr (· ++ ·) []

/-- An empty cache directory with no injected faults. -/
def emptyFS : FileSystem := ⟨[], [], []⟩

/-- An origin that closes every connection without sending any data. -/
def silentOrigin : Origin := ⟨fun _ _ => []⟩

/-- An origin that answers every request with the single chunk `[7]`. -/
def orgOneP : Origin := ⟨fun _ _ => [[7]]⟩

/-- A well-formed proxy request for `http://h/p`. -/
def reqHP : Str := "GET http://h/p HTTP/1.1\r\n\r\n".data

/-- A cache directory holding an EMPTY file under the key for `h/p`
(as left behind, e.g., by `open(..., "wb")` truncating before a failed
write, or by any pre-existing empty file in the cache directory). -/
def fsEmptyEntry : FileSystem := ⟨[("h_p".data, [])], [], []⟩

/-- A cache directory holding bytes `[9]` under the key for `h/p`. -/
def fsHP9 : FileSystem := ⟨[("h_p".data, [9])], [], []⟩

/-- A cache directory where writing the key for `h/p` raises an OSError. -/
def fsWriteFailHP : FileSystem := ⟨[], [], ["h_p".data]⟩

/-- A cache directory holding `[5]` under the key for `h/p`, where reading
that file raises an OSError. -/
def fsReadFailHP : FileSystem := ⟨[("h_p".data, [5])], ["h_p".data], []⟩

/-- An origin that delivers its response across two reads: first
`[72, 105]` ("Hi"), then `[33]` ("!"). -/
def twoChunkOrigin : Origin := ⟨fun _ _ => [[72, 105], [33]]⟩

/-- A well-formed proxy request for `http://h/f`. -/
def reqHF : Str := "GET http://h/f HTTP/1.1\r\n\r\n".data

/-- A cache directory holding bytes `[1, 2]` under the key for `h/p`. -/
def fsHP12 : FileSystem := ⟨[("h_p".data, [1, 2])], [], []⟩

/-- An origin that answers every request with the single chunk `[3, 4]`. -/
def org34 : Origin := ⟨fun _ _ => [[3, 4]]⟩

/-- A request for `http://h/p` carrying a `Cache-Control: no-cache`
header, the external no-cache signal the module docstring of
proxyserver.py advertises for forcing a fresh fetch. -/
def req8 : Str :=
  "GET http://h/p HTTP/1.1\r\nCache-Control: no-cache\r\n\r\n".data

/-- An origin serving `[42]` for path `/a_b` and `[43]` for any other
path (in particular for `/a/b`). -/
def org9 : Origin := ⟨fun _ p => if p = "/a_b".data then [[42]] else [[43]]⟩

/-- A well-formed proxy request for `http://host/a_b`. -/
def req9a : Str := "GET http://host/a_b HTTP/1.1\r\n\r\n".data

/-- A well-formed proxy request for the distinct URL `http://host/a/b`. -/
def req9b : Str := "GET http://host/a/b HTTP/1.1\r\n\r\n".data

/-- The bytes of an HTTP 404 error response. -/
def data404 : Bytes := "HTTP/1.1 404 Not Found\r\n\r\n".data.map Char.toNat

/-- An origin that answers every request with a 404 error response. -/
def org404 : Origin := ⟨fun _ _ => [data404]⟩

lemma handle_client_err (fs : FileSystem) (origin : Origin) (request : Str)
    (hparse : parse_request request = .err) :
    handle_client fs origin request = ⟨[], [], fs, true⟩ := by
  simp [handle_client, hparse]

lemma handle_client_ok (fs : FileSystem) (origin : Origin) (request h p k : Str)
    (hparse : parse_request request = .ok h p k) :
    handle_client fs origin request = cache_or_fetch fs origin h p k := by
  simp [handle_client, hparse]

lemma cache_or_fetch_hit (fs : FileSystem) (origin : Origin) (h p k : Str)
    (d : Bytes) (hhit : get_cached_content fs k = .hit d) (hne : d ≠ []) :
    cache_or_fetch fs origin h p k = ⟨[d], [], fs, false⟩ := by
  simp [cache_or_fetch, hhit, hne]

lemma fetchAndServe_empty (fs : FileSystem) (origin : Origin) (h p k : Str)
    (he : recvOnce (origin.chunks h p) = []) :
    fetchAndServe fs origin h p k = ⟨[], [(h, p)], fs, true⟩ := by
  simp [fetchAndServe, he]

lemma fetchAndServe_writeFail (fs : FileSystem) (origin : Origin) (h p k : Str)
    (hne : recvOnce (origin.chunks h p) ≠ []) (hw : k ∈ fs.writeFail) :
    fetchAndServe fs origin h p k = ⟨[], [(h, p)], fs, true⟩ := by
  simp [fetchAndServe, hne, cache_content, hw]

lemma fetchAndServe_store (fs : FileSystem) (origin : Origin) (h p k : Str)
    (hne : recvOnce (origin.chunks h p) ≠ []) (hw : k ∉ fs.writeFail) :
    fetchAndServe fs origin h p k =
      ⟨[recvOnce (origin.chunks h p)], [(h, p)],
        { fs with entries := (k, recvOnce (origin.chunks h p)) :: fs.entries },
        false⟩ := by
  simp [fetchAndServe, hne, cache_content, hw]

lemma cache_or_fetch_ioError (fs : FileSystem) (origin : Origin) (h p k : Str)
    (hio : get_cached_content fs k = .ioError) :
    cache_or_fetch fs origin h p k = ⟨[], [], fs, true⟩ := by
  simp [cache_or_fetch, hio]

lemma cache_or_fetch_miss (fs : FileSystem) (origin : Origin) (h p k : Str)
    (hm : get_cached_content fs k = .miss) :
    cache_or_fetch fs origin h p k = fetchAndServe fs origin h p k := by
  simp [cache_or_fetch, hm]

lemma cache_or_fetch_hit_empty (fs : FileSystem) (origin : Origin) (h p k : Str)
    (hhit : get_cached_content fs k = .hit []) :
    cache_or_fetch fs origin h p k = fetchAndServe fs origin h p k := by
  simp [cache_or_fetch, hhit]

lemma get_cached_content_cons (fs : FileSystem) (k : Str) (d : Bytes)
    (hread : k ∉ fs.readFail) :
    get_cached_content { fs with entries := (k, d) :: fs.entries } k =
      .hit d := by
  simp [get_cached_content, fsLookup, hread]

lemma parse_request_err_of_bad (request : Str)
    (hbad : (pySplit (firstLine request)).length < 2 ∨
      ((pySplit (firstLine request)).headD []).map Char.toUpper ≠ "GET".data ∨
      strStartsWith "https://".data ((pySplit (firstLine request)).getD 1 []) = true ∨
      strStartsWith "/".data ((pySplit (firstLine request)).getD 1 []) = true) :
    parse_request request = .err := by
  simp only [parse_request]
  split_ifs with h0 h1 h2 h3 h4 h5
  · rfl
  · rfl
  · rfl
  · rfl
  · rfl
  · rfl
  · exfalso
    rcases hbad with hb | hb | hb | hb
    · exact h2 hb
    · exact h3 hb
    · exact h4 hb
    · exact h5 hb

/-- Claim C1: the fetch step is claimed to accumulate the complete origin
response by looping reads until the origin closes.  The code instead
performs a single `recv` (proxyserver.py line 171): when the origin
delivers its response in two chunks, only the first chunk is returned,
cached and relayed, not the accumulation of all chunks. -/
theorem claim1_theorem :
    (handle_client emptyFS twoChunkOrigin reqHF).sent = [[72, 105]] ∧
    (handle_client emptyFS twoChunkOrigin reqHF).fs.entries =
      [("h_f".data, [72, 105])] ∧
    concatChunks (twoChunkOrigin.chunks "h".data "/f".data) =
      [72, 105, 33] ∧
    ([72, 105] : Bytes) ≠ [72, 105, 33] := by decide

/-- Claim C2, counterexample: the cache key for `h/p` is present in the
store (mapped to empty bytes, e.g. a truncated cache file), so the lookup
succeeds, yet the handler opens an origin connection instead of relaying
the cached bytes: Python's `if cached_data:` treats empty bytes as falsy
(proxyserver.py line 148). -/
theorem claim2_counterexample :
    fsLookup fsEmptyEntry.entries "h_p".data = some [] ∧
    (handle_client fsEmptyEntry orgOneP reqHP).originCalls =
      [("h".data, "/p".data)] := by decide

/-- Claim C2, amended: for every request whose cache lookup returns
NON-EMPTY bytes, the handler relays exactly those bytes, opens no origin
connection and leaves the cache unchanged; and after any exchange in which
the handler sent bytes to the client, repeating the identical request
(absent an injected read fault on the key) again sends the same bytes with
zero origin connections. -/
theorem claim2_theorem (fs : FileSystem) (origin : Origin)
    (request h p k : Str) (d : Bytes)
    (hparse : parse_request request = .ok h p k) :
    (get_cached_content fs k = .hit d → d ≠ [] →
      handle_client fs origin request = ⟨[d], [], fs, false⟩) ∧
    (∀ r1, handle_client fs origin request = r1 → r1.sent = [d] →
      k ∉ r1.fs.readFail →
      handle_client r1.fs origin request = ⟨[d], [], r1.fs, false⟩) := by
  constructor
  · intro hhit hne
    rw [handle_client_ok fs origin request h p k hparse]
    exact cache_or_fetch_hit fs origin h p k d hhit hne
  · intro r1 hr1 hsent hread
    rw [handle_client_ok fs origin request h p k hparse] at hr1
    rw [handle_client_ok r1.fs origin request h p k hparse]
    subst hr1
    cases hlook : get_cached_content fs k with
    | ioError =>
        rw [cache_or_fetch_ioError fs origin h p k hlook] at hsent
        simp at hsent
    | hit data =>
        by_cases hd : data = []
        · subst hd
          rw [cache_or_fetch_hit_empty fs origin h p k hlook] at hsent hread ⊢
          by_cases hresp : recvOnce (origin.chunks h p) = []
          · rw [fetchAndServe_empty fs origin h p k hresp] at hsent
            simp at hsent
          · by_cases hw : k ∈ fs.writeFail
            · rw [fetchAndServe_writeFail fs origin h p k hresp hw] at hsent
              simp at hsent
            · rw [fetchAndServe_store fs origin h p k hresp hw] at hsent hread ⊢
              simp only [List.cons.injEq, and_true] at hsent
              subst hsent
              exact cache_or_fetch_hit _ origin h p k _
                (get_cached_content_cons fs k _ hread) hresp
        · rw [cache_or_fetch_hit fs origin h p k data hlook hd] at hsent hread ⊢
          simp only [List.cons.injEq, and_true] at hsent
          subst hsent
          exact cache_or_fetch_hit fs origin h p k _ hlook hd
    | miss =>
        rw [cache_or_fetch_miss fs origin h p k hlook] at hsent hread ⊢
        by_cases hresp : recvOnce (origin.chunks h p) = []
        · rw [fetchAndServe_empty fs origin h p k hresp] at hsent
          simp at hsent
        · by_cases hw : k ∈ fs.writeFail
          · rw [fetchAndServe_writeFail fs origin h p k hresp hw] at hsent
            simp at hsent
          · rw [fetchAndServe_store fs origin h p k hresp hw] at hsent hread ⊢
            simp only [List.cons.injEq, and_true] at hsent
            subst hsent
            exact cache_or_fetch_hit _ origin h p k _
              (get_cached_content_cons fs k _ hread) hresp

/-- Claim C2, witness: a non-empty cached entry is relayed with no origin
contact, and the second of two identical requests after a successful
first exchange is served from the cache with the same bytes. -/
theorem claim2_witness :
    handle_client fsHP9 orgOneP reqHP = ⟨[[9]], [], fsHP9, false⟩ ∧
    handle_client (handle_client emptyFS orgOneP reqHP).fs orgOneP reqHP =
      ⟨[[7]], [], (handle_client emptyFS orgOneP reqHP).fs, false⟩ := by
  constructor
  · exact (claim2_theorem fsHP9 orgOneP reqHP "h".data "/p".data
      "h_p".data [9] (by decide)).1 (by decide) (by decide)
  · exact (claim2_theorem emptyFS orgOneP reqHP "h".data "/p".data
      "h_p".data [7] (by decide)).2 (handle_client emptyFS orgOneP reqHP)
      rfl (by decide) (by decide)

/-- Claim C3, counterexample: the origin fetch succeeds (first chunk
`[7]`), storing it raises a write error, and the session ends with NOTHING
sent to the client: the exception raised inside `cache_content` (line 179)
skips the `sendall` on line 183 and lands in the generic `except` clause,
so the already-fetched bytes are not relayed. -/
theorem claim3_counterexample :
    recvOnce (orgOneP.chunks "h".data "/p".data) = [7] ∧
    handle_client fsWriteFailHP orgOneP reqHP =
      ⟨[], [("h".data, "/p".data)], fsWriteFailHP, true⟩ := by decide

/-- Claim C3, amended: when the origin fetch succeeds but storing the
bytes fails, the failure is reported to the operator, but it is fatal to
the current request: the handler sends nothing to the client and the cache
is unchanged. -/
theorem claim3_theorem (fs : FileSystem) (origin : Origin)
    (request h p k : Str)
    (hparse : parse_request request = .ok h p k)
    (hmiss : get_cached_content fs k = .miss)
    (hresp : recvOnce (origin.chunks h p) ≠ [])
    (hw : k ∈ fs.writeFail) :
    handle_client fs origin request = ⟨[], [(h, p)], fs, true⟩ := by
  rw [handle_client_ok fs origin request h p k hparse,
    cache_or_fetch_miss fs origin h p k hmiss]
  exact fetchAndServe_writeFail fs origin h p k hresp hw

/-- Claim C3, witness: the amended behaviour at a concrete fetch-succeeds,
store-fails input. -/
theorem claim3_witness :
    handle_client fsWriteFailHP orgOneP reqHP =
      ⟨[], [("h".data, "/p".data)], fsWriteFailHP, true⟩ :=
  claim3_theorem fsWriteFailHP orgOneP reqHP "h".data "/p".data "h_p".data
    (by decide) (by decide) (by decide) (by decide)

/-- Claim C4, counterexample: reading the existing cache file for the key
raises an I/O error; instead of degrading to a miss and fetching from the
origin (which would answer `[7]`), the handler aborts the session: no
origin connection is opened and nothing is sent to the client (the
exception from `get_cached_content` lands in the generic `except`
clause). -/
theorem claim4_counterexample :
    handle_client fsReadFailHP orgOneP reqHP =
      ⟨[], [], fsReadFailHP, true⟩ := by decide

/-- Claim C4, amended: a cache read error is NOT treated as a miss: the
error is reported and the session is aborted, with no origin fetch and
nothing sent to the client. -/
theorem claim4_theorem (fs : FileSystem) (origin : Origin)
    (request h p k : Str)
    (hparse : parse_request request = .ok h p k)
    (hio : get_cached_content fs k = .ioError) :
    handle_client fs origin request = ⟨[], [], fs, true⟩ := by
  rw [handle_client_ok fs origin request h p k hparse]
  exact cache_or_fetch_ioError fs origin h p k hio

/-- Claim C4, witness: the amended behaviour at a concrete read-fault
input. -/
theorem claim4_witness :
    handle_client fsReadFailHP orgOneP reqHP =
      ⟨[], [], fsReadFailHP, true⟩ :=
  claim4_theorem fsReadFailHP orgOneP reqHP "h".data "/p".data "h_p".data
    (by decide) (by decide)

/-- Claim C5: every client input that fails parsing (request line with
fewer than two whitespace-separated tokens, method other than GET
case-insensitively, an `https://` URL, or a URL starting with `/`) makes
the handler close the connection with nothing sent to the client, no
origin connection, and the cache untouched. -/
theorem claim5_theorem (fs : FileSystem) (origin : Origin) (request : Str)
    (hbad : (pySplit (firstLine request)).length < 2 ∨
      ((pySplit (firstLine request)).headD []).map Char.toUpper ≠ "GET".data ∨
      strStartsWith "https://".data
        ((pySplit (firstLine request)).getD 1 []) = true ∨
      strStartsWith "/".data
        ((pySplit (firstLine request)).getD 1 []) = true) :
    handle_client fs origin request = ⟨[], [], fs, true⟩ :=
  handle_client_err fs origin request (parse_request_err_of_bad request hbad)

/-- Claim C5, witness: a CONNECT request is rejected with no response and
no origin connection attempt. -/
theorem claim5_witness :
    handle_client emptyFS silentOrigin
      "CONNECT example.com:443 HTTP/1.1\r\n\r\n".data =
        ⟨[], [], emptyFS, true⟩ :=
  claim5_theorem emptyFS silentOrigin
    "CONNECT example.com:443 HTTP/1.1\r\n\r\n".data
    (Or.inr (Or.inl (by decide)))

/-- Claim C6: storing bytes `B` under key `k` and then looking `k` up
returns exactly `B`, byte for byte (given that the store succeeded and no
read fault is injected for `k`). -/
theorem claim6_theorem (fs fs' : FileSystem) (k : Str) (B : Bytes)
    (hstore : cache_content fs k B = some fs') (hread : k ∉ fs.readFail) :
    get_cached_content fs' k = .hit B := by
  by_cases hw : k ∈ fs.writeFail
  · simp [cache_content, hw] at hstore
  · simp [cache_content, hw] at hstore
    rw [← hstore]
    exact get_cached_content_cons fs k B hread

/-- Claim C6, witness: a concrete store-then-lookup round trip. -/
theorem claim6_witness :
    get_cached_content ⟨[("k".data, [1, 2])], [], []⟩ "k".data =
      .hit [1, 2] :=
  claim6_theorem emptyFS ⟨[("k".data, [1, 2])], [], []⟩ "k".data [1, 2]
    (by decide) (by decide)

/-- Claim C7: a cache entry is added only when a non-empty response was
received from the origin (the cache is otherwise unchanged), and an empty
accumulated origin response is treated as an error: nothing is written to
the cache and nothing is sent to the client. -/
theorem claim7_theorem (fs : FileSystem) (origin : Origin)
    (request h p k : Str) :
    ((handle_client fs origin request).fs.entries = fs.entries ∨
      ∃ k2 d, d ≠ [] ∧
        (handle_client fs origin request).fs.entries =
          (k2, d) :: fs.entries) ∧
    (recvOnce (origin.chunks h p) = [] →
      fetchAndServe fs origin h p k = ⟨[], [(h, p)], fs, true⟩) := by
  constructor
  · cases hparse : parse_request request with
    | err => left; rw [handle_client_err fs origin request hparse]
    | ok h2 p2 k2 =>
      rw [handle_client_ok fs origin request h2 p2 k2 hparse]
      have hfetch : (fetchAndServe fs origin h2 p2 k2).fs.entries =
          fs.entries ∨
          ∃ k3 d, d ≠ [] ∧ (fetchAndServe fs origin h2 p2 k2).fs.entries =
            (k3, d) :: fs.entries := by
        by_cases hresp : recvOnce (origin.chunks h2 p2) = []
        · left; rw [fetchAndServe_empty fs origin h2 p2 k2 hresp]
        · by_cases hw : k2 ∈ fs.writeFail
          · left; rw [fetchAndServe_writeFail fs origin h2 p2 k2 hresp hw]
          · right
            exact ⟨k2, recvOnce (origin.chunks h2 p2), hresp,
              by rw [fetchAndServe_store fs origin h2 p2 k2 hresp hw]⟩
      cases hlook : get_cached_content fs k2 with
      | ioError => left; rw [cache_or_fetch_ioError fs origin h2 p2 k2 hlook]
      | miss =>
          rw [cache_or_fetch_miss fs origin h2 p2 k2 hlook]
          exact hfetch
      | hit data =>
          by_cases hd : data = []
          · subst hd
            rw [cache_or_fetch_hit_empty fs origin h2 p2 k2 hlook]
            exact hfetch
          · left; rw [cache_or_fetch_hit fs origin h2 p2 k2 data hlook hd]
  · intro he
    exact fetchAndServe_empty fs origin h p k he

/-- Claim C7, witness: against a silent origin the cache is unchanged and
the fetch step sends nothing. -/
theorem claim7_witness :
    ((handle_client emptyFS silentOrigin reqHP).fs.entries =
        emptyFS.entries ∨
      ∃ k2 d, d ≠ [] ∧
        (handle_client emptyFS silentOrigin reqHP).fs.entries =
          (k2, d) :: emptyFS.entries) ∧
    fetchAndServe emptyFS silentOrigin "h".data "/p".data "h_p".data =
      ⟨[], [("h".data, "/p".data)], emptyFS, true⟩ :=
  ⟨(claim7_theorem emptyFS silentOrigin reqHP "h".data "/p".data
      "h_p".data).1,
   (claim7_theorem emptyFS silentOrigin reqHP "h".data "/p".data
      "h_p".data).2 (by decide)⟩

/-- Claim C8: the code offers no way for a request-carried signal to skip
the cache lookup.  With an entry cached for `h/p` and a fresh response
available at the origin, a request carrying `Cache-Control: no-cache`
(the very signal the module docstring of proxyserver.py advertises for
forcing a fresh fetch) is still served the cached bytes with zero origin
connections: `handle_client` never inspects any header. -/
theorem claim8_theorem :
    recvOnce (org34.chunks "h".data "/p".data) = [3, 4] ∧
    handle_client fsHP12 org34 req8 = ⟨[[1, 2]], [], fsHP12, false⟩ := by
  decide

/-- Claim C9: the cache key derivation (replace every `/` by `_`) is not
injective: the distinct URLs `http://host/a_b` and `http://host/a/b` map
to the same key `host_a_b`, so after the first URL's response `[42]` is
cached, a request for the second URL is served those bytes verbatim with
no origin connection, although the origin would answer `[43]` for
`/a/b`. -/
theorem claim9_theorem :
    req9a ≠ req9b ∧
    parse_request req9a = .ok "host".data "/a_b".data "host_a_b".data ∧
    parse_request req9b = .ok "host".data "/a/b".data "host_a_b".data ∧
    recvOnce (org9.chunks "host".data "/a/b".data) = [43] ∧
    (handle_client (handle_client emptyFS org9 req9a).fs org9 req9b).sent =
      [[42]] ∧
    (handle_client (handle_client emptyFS org9 req9a).fs org9
      req9b).originCalls = [] := by decide

/-- Claim C10: caching ignores the HTTP status of the origin response:
ANY non-empty response bytes (for instance a 404 error response) are
stored under the derived key and relayed, and a subsequent identical
request is served those bytes as a cache hit with no origin
connection. -/
theorem claim10_theorem (fs : FileSystem) (origin : Origin)
    (request h p k : Str) (data : Bytes)
    (hparse : parse_request request = .ok h p k)
    (hmiss : get_cached_content fs k = .miss)
    (hresp : recvOnce (origin.chunks h p) = data)
    (hne : data ≠ [])
    (hw : k ∉ fs.writeFail) :
    handle_client fs origin request =
      ⟨[data], [(h, p)],
        { fs with entries := (k, data) :: fs.entries }, false⟩ ∧
    (k ∉ fs.readFail →
      handle_client { fs with entries := (k, data) :: fs.entries }
          origin request =
        ⟨[data], [],
          { fs with entries := (k, data) :: fs.entries }, false⟩) := by
  subst hresp
  constructor
  · rw [handle_client_ok fs origin request h p k hparse,
      cache_or_fetch_miss fs origin h p k hmiss]
    exact fetchAndServe_store fs origin h p k hne hw
  · intro hread
    rw [handle_client_ok _ origin request h p k hparse]
    exact cache_or_fetch_hit _ origin h p k _
      (get_cached_content_cons fs k _ hread) hne

/-- Claim C10, witness: a 404 response is cached and then served as a hit
to the identical follow-up request. -/
theorem claim10_witness :
    handle_client emptyFS org404 reqHP =
      ⟨[data404], [("h".data, "/p".data)],
        ⟨[("h_p".data, data404)], [], []⟩, false⟩ ∧
    handle_client ⟨[("h_p".data, data404)], [], []⟩ org404 reqHP =
      ⟨[data404], [], ⟨[("h_p".data, data404)], [], []⟩, false⟩ := by
  have h := claim10_theorem emptyFS org404 reqHP "h".data "/p".data
    "h_p".data data404 (by decide) (by decide) (by decide) (by decide)
    (by decide)
  exact ⟨h.1, h.2 (by decide)⟩
